import Mathlib

/-!
Verification of the terminal-chat portfolio UI (src/src/components/Terminal.tsx).

The embedding translates the pure core of the component into Lean:
the conversation item model, the replay function `reconstructItems`,
the completed navigation handler `handleSelectCompleted`, the typing
engine reveal loop, and the persistence helpers.  The React `useState`
setters become explicit state passing on `TermState`; the global
`messageCounter` becomes an explicit counter threaded through each
operation; `sessionStorage` faults become `Except` values.  Rich JSX
response nodes returned by `getResponse` are represented by the tag of
the branch that produced them (`Response`), since their inner markup is
presentational only.
-/

namespace Portfolio

/-- The `WELCOME_MESSAGE` constant of Terminal.tsx. -/
def WELCOME_MESSAGE : String :=
  "Hello! I\x27m Daniel Gelencser, a software engineer. What would you like to know?"

/-- One entry of an options row: `{ label, section? }`. -/
structure OptionEntry where
  label : String
  sectionId : Option String
deriving DecidableEq, Repr

/-- The `MAIN_OPTIONS` constant of Terminal.tsx (six root menu entries). -/
def MAIN_OPTIONS : List OptionEntry :=
  [ ⟨"About Me", some "about"⟩,
    ⟨"Experience", some "experience"⟩,
    ⟨"Projects", some "projects"⟩,
    ⟨"Stack", some "stack"⟩,
    ⟨"Extracurricular", some "extracurricular"⟩,
    ⟨"Contact", some "contact"⟩ ]

/-- `FOLLOW_UP_OPTIONS = MAIN_OPTIONS` in the source. -/
def FOLLOW_UP_OPTIONS : List OptionEntry := MAIN_OPTIONS

/-- Tag for the JSX node returned by each branch of `getResponse`. -/
inductive Response
  | about
  | experience
  | projects
  | contact
  | notFound
deriving DecidableEq, Repr

/-- The `getResponse` switch of Terminal.tsx: four known branches and a
`Section not found.` default. -/
def getResponse (s : String) : Response :=
  if s = "about" then Response.about
  else if s = "experience" then Response.experience
  else if s = "projects" then Response.projects
  else if s = "contact" then Response.contact
  else Response.notFound

/-- Content of a message row: a plain string (welcome text, user labels,
file contents, popup acknowledgements) or a rich `getResponse` node. -/
inductive Content
  | text (s : String)
  | rich (r : Response)
deriving DecidableEq, Repr

/-- The `type` field of `MessageData`. -/
inductive Speaker
  | system
  | user
deriving DecidableEq, Repr

/-- `MessageData` from Message.tsx. -/
structure MessageData where
  id : Nat
  type : Speaker
  content : Content
deriving DecidableEq, Repr

/-- The `ConversationItem` tagged union of Terminal.tsx. -/
inductive ConversationItem
  | typing (key : Nat) (text : String) (displayed : String)
  | message (key : Nat) (data : MessageData)
  | options (key : Nat) (opts : List OptionEntry)
  | contactBtn (key : Nat)
deriving DecidableEq, Repr

/-- The `SessionAction` union persisted to sessionStorage.  In the latest
revision the `section` field of a select is optional. -/
inductive SessionAction
  | welcome
  | select (sectionId : Option String) (label : String)
deriving DecidableEq, Repr

/-- Tests whether `i.kind` is `options` or `contact-btn`. -/
def isInteractive : ConversationItem → Bool
  | ConversationItem.options _ _ => true
  | ConversationItem.contactBtn _ => true
  | _ => false

/-- Tests whether `i.kind` is `typing`. -/
def isTypingItem : ConversationItem → Bool
  | ConversationItem.typing _ _ _ => true
  | _ => false

/-- The recurring filter that drops every options and contact-btn row. -/
def stripInteractive (items : List ConversationItem) : List ConversationItem :=
  items.filter (fun i => !(isInteractive i))

/-- One iteration of the `actions.forEach` loop of `reconstructItems`,
threading the `messageCounter` explicitly.  Every `nextId()` call of the
source is mirrored in order. -/
def reconstructStep : List ConversationItem × Nat → SessionAction → List ConversationItem × Nat
  | (items, c), SessionAction.welcome =>
      (items ++
        [ ConversationItem.message (c+1) ⟨c+2, Speaker.system, Content.text WELCOME_MESSAGE⟩,
          ConversationItem.options (c+3) MAIN_OPTIONS ], c+3)
  | (items, c), SessionAction.select sectionId label =>
      if sectionId = some "contact" then
        (stripInteractive items ++
          [ ConversationItem.message (c+1) ⟨c+2, Speaker.user, Content.text label⟩,
            ConversationItem.message (c+3)
              ⟨c+4, Speaker.system, Content.rich (getResponse (sectionId.getD "about"))⟩,
            ConversationItem.contactBtn (c+5),
            ConversationItem.options (c+6) FOLLOW_UP_OPTIONS ], c+6)
      else
        (stripInteractive items ++
          [ ConversationItem.message (c+1) ⟨c+2, Speaker.user, Content.text label⟩,
            ConversationItem.message (c+3)
              ⟨c+4, Speaker.system, Content.rich (getResponse (sectionId.getD "about"))⟩,
            ConversationItem.options (c+5) FOLLOW_UP_OPTIONS ], c+5)

/-- `reconstructItems` of Terminal.tsx: replay the stored decision log,
starting from a given value of the global id counter. -/
def reconstructItems (actions : List SessionAction) (c : Nat) : List ConversationItem × Nat :=
  actions.foldl reconstructStep ([], c)

/-- A conversation row with its ids erased: kind, speaker and content only. -/
inductive RowContent
  | typing (text : String) (displayed : String)
  | message (type : Speaker) (content : Content)
  | options (opts : List OptionEntry)
  | contactBtn
deriving DecidableEq, Repr

/-- Erase the row id (and message id) of an item, keeping its content. -/
def eraseIds : ConversationItem → RowContent
  | ConversationItem.typing _ t d => RowContent.typing t d
  | ConversationItem.message _ d => RowContent.message d.type d.content
  | ConversationItem.options _ o => RowContent.options o
  | ConversationItem.contactBtn _ => RowContent.contactBtn

/-- Interactivity of a row is determined by its id-erased content. -/
def isInteractiveRC : RowContent → Bool
  | RowContent.options _ => true
  | RowContent.contactBtn => true
  | _ => false

lemma isInteractive_eraseIds (i : ConversationItem) :
    isInteractive i = isInteractiveRC (eraseIds i) := by
  cases i <;> rfl

lemma map_eraseIds_stripInteractive (l : List ConversationItem) :
    (stripInteractive l).map eraseIds
      = (l.map eraseIds).filter (fun r => !(isInteractiveRC r)) := by
  induction l with
  | nil => rfl
  | cons a t ih =>
      simp only [stripInteractive, List.filter_cons, List.map_cons,
        isInteractive_eraseIds a]
      cases h : isInteractiveRC (eraseIds a) <;>
        simp [h, ← ih, stripInteractive]

lemma reconstructStep_select (items : List ConversationItem) (c : Nat)
    (sectionId : Option String) (label : String) :
    reconstructStep (items, c) (SessionAction.select sectionId label)
      = if sectionId = some "contact" then
          (stripInteractive items ++
            [ ConversationItem.message (c+1) ⟨c+2, Speaker.user, Content.text label⟩,
              ConversationItem.message (c+3)
                ⟨c+4, Speaker.system, Content.rich (getResponse (sectionId.getD "about"))⟩,
              ConversationItem.contactBtn (c+5),
              ConversationItem.options (c+6) FOLLOW_UP_OPTIONS ], c+6)
        else
          (stripInteractive items ++
            [ ConversationItem.message (c+1) ⟨c+2, Speaker.user, Content.text label⟩,
              ConversationItem.message (c+3)
                ⟨c+4, Speaker.system, Content.rich (getResponse (sectionId.getD "about"))⟩,
              ConversationItem.options (c+5) FOLLOW_UP_OPTIONS ], c+5) := rfl

lemma reconstruct_erase_congr (as : List SessionAction) :
    ∀ (p₁ p₂ : List ConversationItem × Nat),
      p₁.1.map eraseIds = p₂.1.map eraseIds →
      ((List.foldl reconstructStep p₁ as).1).map eraseIds
        = ((List.foldl reconstructStep p₂ as).1).map eraseIds := by
  induction as with
  | nil => intro p₁ p₂ h; simpa using h
  | cons a rest ih =>
      intro p₁ p₂ h
      obtain ⟨i₁, c₁⟩ := p₁
      obtain ⟨i₂, c₂⟩ := p₂
      simp only [List.foldl_cons]
      apply ih
      cases a with
      | welcome =>
          simp only [Prod.fst] at h
          simp [reconstructStep, h, eraseIds]
      | select sectionId label =>
          simp only [Prod.fst] at h
          rw [reconstructStep_select, reconstructStep_select]
          by_cases hc : sectionId = some "contact"
          · rw [if_pos hc, if_pos hc]
            simp [map_eraseIds_stripInteractive, h, eraseIds]
          · rw [if_neg hc, if_neg hc]
            simp [map_eraseIds_stripInteractive, h, eraseIds]

/-- Claim C1: replay is deterministic.  Running `reconstructItems` on the
same decision sequence from any two values of the id counter yields the
same ordered row content (kinds, speakers, message and option content),
differing at most in row ids. -/
theorem replay_deterministic (actions : List SessionAction) (c₁ c₂ : Nat) :
    ((reconstructItems actions c₁).1).map eraseIds
      = ((reconstructItems actions c₂).1).map eraseIds :=
  reconstruct_erase_congr actions ([], c₁) ([], c₂) rfl

/-- The maximal run of interactive rows (options / contact buttons) at the
end of a transcript. -/
def trailingInteractive (items : List ConversationItem) : List ConversationItem :=
  (items.reverse.takeWhile isInteractive).reverse

/-- Acceptable id-erased shapes for the trailing interactive run: empty, a
single options row, or a contact button directly followed by an options row. -/
def tailShapeOk : List RowContent → Bool
  | [] => true
  | [RowContent.options _] => true
  | [RowContent.contactBtn, RowContent.options _] => true
  | _ => false

/-- Menu hygiene: all interactive rows of the transcript sit in its trailing
run, and that run has one of the acceptable shapes. -/
def menuShapeOk (items : List ConversationItem) : Bool :=
  decide (items.filter isInteractive = trailingInteractive items) &&
    tailShapeOk ((trailingInteractive items).map eraseIds)

lemma takeWhile_append_of_all {α : Type} {p : α → Bool} {l₁ l₂ : List α}
    (h : ∀ a ∈ l₁, p a = true) :
    (l₁ ++ l₂).takeWhile p = l₁ ++ l₂.takeWhile p := by
  induction l₁ with
  | nil => simp
  | cons a t ih =>
      have ha : p a = true := h a (List.mem_cons_self a t)
      simp only [List.cons_append, List.takeWhile_cons, ha, if_true]
      rw [ih (fun b hb => h b (List.mem_cons_of_mem a hb))]

lemma takeWhile_eq_nil_of_all {α : Type} {p : α → Bool} {l : List α}
    (h : ∀ a ∈ l, p a = false) :
    l.takeWhile p = [] := by
  cases l with
  | nil => rfl
  | cons a t =>
      have ha : p a = false := h a (List.mem_cons_self a t)
      simp [List.takeWhile_cons, ha]

lemma filter_eq_nil_of_all {α : Type} {p : α → Bool} {l : List α}
    (h : ∀ a ∈ l, p a = false) :
    l.filter p = [] := by
  induction l with
  | nil => rfl
  | cons a t ih =>
      have ha : p a = false := h a (List.mem_cons_self a t)
      simp [List.filter_cons, ha,
        ih (fun b hb => h b (List.mem_cons_of_mem a hb))]

lemma filter_eq_self_of_all {α : Type} {p : α → Bool} {l : List α}
    (h : ∀ a ∈ l, p a = true) :
    l.filter p = l := by
  induction l with
  | nil => rfl
  | cons a t ih =>
      have ha : p a = true := h a (List.mem_cons_self a t)
      simp [List.filter_cons, ha,
        ih (fun b hb => h b (List.mem_cons_of_mem a hb))]

lemma trailingInteractive_append (p t : List ConversationItem)
    (hp : ∀ i ∈ p, isInteractive i = false)
    (ht : ∀ i ∈ t, isInteractive i = true) :
    trailingInteractive (p ++ t) = t := by
  unfold trailingInteractive
  rw [List.reverse_append,
    takeWhile_append_of_all (fun a ha => ht a (List.mem_reverse.1 ha)),
    takeWhile_eq_nil_of_all (fun a ha => hp a (List.mem_reverse.1 ha))]
  simp

lemma filter_interactive_append (p t : List ConversationItem)
    (hp : ∀ i ∈ p, isInteractive i = false)
    (ht : ∀ i ∈ t, isInteractive i = true) :
    (p ++ t).filter isInteractive = t := by
  rw [List.filter_append, filter_eq_nil_of_all hp, filter_eq_self_of_all ht]
  simp

lemma isInteractive_of_mem_strip {l : List ConversationItem} {i : ConversationItem}
    (h : i ∈ stripInteractive l) : isInteractive i = false := by
  have := (List.mem_filter.1 h).2
  simpa using this

lemma menuShapeOk_append (p t : List ConversationItem)
    (hp : ∀ i ∈ p, isInteractive i = false)
    (ht : ∀ i ∈ t, isInteractive i = true)
    (hshape : tailShapeOk (t.map eraseIds) = true) :
    menuShapeOk (p ++ t) = true := by
  have h1 : trailingInteractive (p ++ t) = t := trailingInteractive_append p t hp ht
  have h2 : (p ++ t).filter isInteractive = t := filter_interactive_append p t hp ht
  simp [menuShapeOk, h1, h2, hshape]

lemma menuShapeOk_reconstructStep_select (items : List ConversationItem) (c : Nat)
    (sectionId : Option String) (label : String) :
    menuShapeOk ((reconstructStep (items, c) (SessionAction.select sectionId label)).1) = true := by
  rw [reconstructStep_select]
  by_cases hc : sectionId = some "contact"
  · rw [if_pos hc]
    have hsplit :
        stripInteractive items ++
          [ ConversationItem.message (c+1) ⟨c+2, Speaker.user, Content.text label⟩,
            ConversationItem.message (c+3)
              ⟨c+4, Speaker.system, Content.rich (getResponse (sectionId.getD "about"))⟩,
            ConversationItem.contactBtn (c+5),
            ConversationItem.options (c+6) FOLLOW_UP_OPTIONS ]
        = (stripInteractive items ++
            [ ConversationItem.message (c+1) ⟨c+2, Speaker.user, Content.text label⟩,
              ConversationItem.message (c+3)
                ⟨c+4, Speaker.system, Content.rich (getResponse (sectionId.getD "about"))⟩ ]) ++
          [ ConversationItem.contactBtn (c+5),
            ConversationItem.options (c+6) FOLLOW_UP_OPTIONS ] := by
      simp
    rw [hsplit]
    apply menuShapeOk_append
    · intro i hi
      rcases List.mem_append.1 hi with hi | hi
      · exact isInteractive_of_mem_strip hi
      · simp only [List.mem_cons, List.not_mem_nil, or_false] at hi
        rcases hi with rfl | rfl <;> rfl
    · intro i hi
      simp only [List.mem_cons, List.not_mem_nil, or_false] at hi
      rcases hi with rfl | rfl <;> rfl
    · rfl
  · rw [if_neg hc]
    have hsplit :
        stripInteractive items ++
          [ ConversationItem.message (c+1) ⟨c+2, Speaker.user, Content.text label⟩,
            ConversationItem.message (c+3)
              ⟨c+4, Speaker.system, Content.rich (getResponse (sectionId.getD "about"))⟩,
            ConversationItem.options (c+5) FOLLOW_UP_OPTIONS ]
        = (stripInteractive items ++
            [ ConversationItem.message (c+1) ⟨c+2, Speaker.user, Content.text label⟩,
              ConversationItem.message (c+3)
                ⟨c+4, Speaker.system, Content.rich (getResponse (sectionId.getD "about"))⟩ ]) ++
          [ ConversationItem.options (c+5) FOLLOW_UP_OPTIONS ] := by
      simp
    rw [hsplit]
    apply menuShapeOk_append
    · intro i hi
      rcases List.mem_append.1 hi with hi | hi
      · exact isInteractive_of_mem_strip hi
      · simp only [List.mem_cons, List.not_mem_nil, or_false] at hi
        rcases hi with rfl | rfl <;> rfl
    · intro i hi
      simp only [List.mem_cons, List.not_mem_nil, or_false] at hi
      rcases hi with rfl
      rfl
    · rfl

/-- Node type of a `NAV_TREE` entry. -/
inductive NavType
  | file (content : String)
  | folder
  | exec
  | popup (popupId : String)
deriving DecidableEq, Repr

/-- One entry of a `NAV_TREE` listing. -/
structure NavEntry where
  id : String
  label : String
  type : NavType
deriving DecidableEq, Repr

/-- The `NAV_TREE` record of Terminal.tsx, keyed by path string. -/
def NAV_TREE (key : String) : Option (List NavEntry) :=
  if key = "root" then some
    [ ⟨"bio.txt", "bio.txt", NavType.file "Hello — I\x27m Daniel Gelencser. I\x27m a software engineer who builds web and cloud products. I enjoy systems design, developer experience, and mentoring teams."⟩,
      ⟨"experience", "experience/", NavType.folder⟩,
      ⟨"projects", "projects/", NavType.folder⟩,
      ⟨"stack", "stack/", NavType.folder⟩,
      ⟨"extracurricular", "extracurricular/", NavType.folder⟩,
      ⟨"contact.sh", "contact.sh", NavType.exec⟩ ]
  else if key = "experience" then some
    [ ⟨"TechCorp", "TechCorp/", NavType.folder⟩,
      ⟨"StartupX", "StartupX/", NavType.folder⟩,
      ⟨"DevHouse", "DevHouse/", NavType.folder⟩ ]
  else if key = "experience/TechCorp" then some
    [ ⟨"summary.md", "summary.md", NavType.file "Senior Software Engineer @ TechCorp (2022–Present) — Led backend migration to microservices on AWS."⟩,
      ⟨"achievements.md", "achievements.md", NavType.file "- Migrated monolith to microservices\n- Reduced latency by 40%\n"⟩,
      ⟨"migration-case-study.md", "migration-case-study.md", NavType.popup "migration"⟩ ]
  else if key = "projects" then some
    [ ⟨"OpenMetrics", "OpenMetrics/", NavType.folder⟩,
      ⟨"FlowKit", "FlowKit/", NavType.folder⟩,
      ⟨"Notifly", "Notifly/", NavType.folder⟩ ]
  else if key = "projects/OpenMetrics" then some
    [ ⟨"readme.md", "readme.md", NavType.file "OpenMetrics — a lightweight observability dashboard built with React and Go."⟩,
      ⟨"architecture.png", "architecture.png", NavType.popup "openmetrics-arch"⟩,
      ⟨"full-breakdown.md", "full-breakdown.md", NavType.popup "openmetrics-full"⟩ ]
  else if key = "stack" then some
    [ ⟨"languages", "languages/", NavType.folder⟩,
      ⟨"infrastructure", "infrastructure/", NavType.folder⟩,
      ⟨"frontend", "frontend/", NavType.folder⟩ ]
  else if key = "extracurricular" then some
    [ ⟨"hobbies", "hobbies/", NavType.folder⟩,
      ⟨"philosophy.txt", "philosophy.txt", NavType.file "I believe in clean code, gradual improvement, and mentoring teams."⟩ ]
  else if key = "extracurricular/hobbies" then some
    [ ⟨"photography.jpg", "photography.jpg", NavType.popup "photos"⟩,
      ⟨"gaming.txt", "gaming.txt", NavType.file "I enjoy indie game jams and tinkering with small game projects."⟩ ]
  else none

/-- The `ROOT_MAP` record mapping symbolic sections to NAV ids. -/
def ROOT_MAP (s : String) : Option String :=
  if s = "about" then some "bio.txt"
  else if s = "experience" then some "experience"
  else if s = "projects" then some "projects"
  else if s = "stack" then some "stack"
  else if s = "extracurricular" then some "extracurricular"
  else if s = "contact" then some "contact.sh"
  else none

/-- The `typingTexts` record of the legacy fallback path. -/
def typingTexts (s : String) : Option String :=
  if s = "about" then some "Sure, here\x27s a bit about me..."
  else if s = "experience" then some "Here\x27s my work experience..."
  else if s = "projects" then some "Here are some projects I\x27ve worked on..."
  else if s = "contact" then some "Great, let\x27s get in touch..."
  else none

/-- The component state touched by `handleSelect`, with React state made
explicit and the global `messageCounter` threaded through. -/
structure TermState where
  items : List ConversationItem
  isTyping : Bool
  sessionActions : List SessionAction
  navPath : List String
  lastOpenedFileId : Option String
  counter : Nat
deriving DecidableEq, Repr

/-- External side-channel calls (goatcounter / formbricks). -/
inductive Effect
  | count (path : String)
  | track (event : String)
deriving DecidableEq, Repr

/-- `currentNavKey`: the string `root` for a path of length at most one,
otherwise the path segments after the tilde joined by slashes. -/
def currentNavKey (navPath : List String) : String :=
  if navPath.length ≤ 1 then "root"
  else String.intercalate "/" (navPath.drop 1)

/-- `entries.filter(e => e.id !== lastOpenedFileId)`: in JS, comparing an id
against `null` keeps the entry. -/
def filterEntries (entries : List NavEntry) (lastOpened : Option String) : List NavEntry :=
  entries.filter (fun e => decide (some e.id ≠ lastOpened))

/-- `{ label: e.label, section: e.id }`. -/
def entryOption (e : NavEntry) : OptionEntry := ⟨e.label, some e.id⟩

/-- The back entry prepended to non-root listings. -/
def backOption : OptionEntry := ⟨".. Back", some "__back"⟩

/-- `resolvedTarget`: the raw target (`section ?? label`) unless `section`
has a `ROOT_MAP` mapping. -/
def resolveTarget (sectionId : Option String) (label : String) : String :=
  match sectionId with
  | some s => (ROOT_MAP s).getD s
  | none => label

/-- The `__back` branch of `handleSelect`, run to completion: a guarded pop
of the nav path followed by replacing the interactive rows with the parent
listing (the fixed `MAIN_OPTIONS` at root). -/
def backCompleted (st : TermState) : TermState :=
  if st.navPath.length ≤ 1 then st
  else
    let next := st.navPath.dropLast
    let key := currentNavKey next
    let entries := (NAV_TREE key).getD []
    let options := (filterEntries entries st.lastOpenedFileId).map entryOption
    if key = "root" then
      { st with navPath := next,
                items := stripInteractive st.items ++
                  [ConversationItem.options (st.counter+1) MAIN_OPTIONS],
                counter := st.counter + 1 }
    else
      { st with navPath := next,
                items := stripInteractive st.items ++
                  [ConversationItem.options (st.counter+1) (backOption :: options)],
                counter := st.counter + 1 }

/-- A folder navigation (either the `NAV_TREE[resolvedTarget]` branch or a
folder-typed match), run to completion.  `pushSeg` is the segment
pushed onto the nav path, `newKey` the key whose listing is shown.  The
options filter reads the handler closure\x27s stale `lastOpenedFileId`, i.e.
the pre-invocation value, even though the state field is reset to null. -/
def enterFolderCompleted (st : TermState) (pushSeg newKey label : String) : TermState :=
  let c1 := st.counter + 1
  let entries := (NAV_TREE newKey).getD []
  let options := (filterEntries entries st.lastOpenedFileId).map entryOption
  let options2 := if newKey = "root" then options else backOption :: options
  { st with
      items := stripInteractive (stripInteractive st.items ++
          [ConversationItem.message c1 ⟨c1, Speaker.user, Content.text label⟩]) ++
        [ConversationItem.options (c1+1) options2],
      navPath := st.navPath ++ [pushSeg],
      lastOpenedFileId := none,
      counter := c1 + 1 }

/-- The file branch of the entry match: show the file contents as a system
message, remember the opened file, and list the current folder without it. -/
def fileCompleted (st : TermState) (m : NavEntry) (content : String) : TermState :=
  let msgId := st.counter + 1
  let key := currentNavKey st.navPath
  let entriesForOptions := (NAV_TREE key).getD []
  let optionsAfterFile := (entriesForOptions.filter (fun e => decide (e.id ≠ m.id))).map entryOption
  let optionsAfterFile2 := if key = "root" then optionsAfterFile else backOption :: optionsAfterFile
  { st with
      items := stripInteractive st.items ++
        [ ConversationItem.message msgId ⟨msgId, Speaker.system, Content.text content⟩,
          ConversationItem.options (msgId+1) optionsAfterFile2 ],
      lastOpenedFileId := some m.id,
      counter := msgId + 1 }

/-- The popup branch of the entry match, run to completion: an `Opening X...`
typing row (left in place — only options/contact rows are filtered) and a
synthetic acknowledgement turn. -/
def popupCompleted (st : TermState) (m : NavEntry) : TermState :=
  let tk := st.counter + 1
  let typingText := "Opening " ++ m.label ++ "..."
  let mid := tk + 1
  { st with
      items := stripInteractive (st.items ++
          [ConversationItem.typing tk typingText typingText]) ++
        [ConversationItem.message mid
          ⟨mid, Speaker.system, Content.text ("(Opened " ++ m.label ++ ")")⟩],
      counter := mid }

/-- The legacy fallback, run to completion: user turn, typing preamble,
then `finalizeTyping` with the effective section, which strips the typing rows
and appends the `getResponse` turn, the optional contact button and the
follow-up menu, recording the decision in the session log. -/
def fallbackCompleted (st : TermState) (sectionId : Option String) (label : String) : TermState :=
  let c1 := st.counter + 1
  let sec := sectionId.getD label
  let text := (typingTexts sec).getD "Sure, here\x27s a bit about me..."
  let tk := c1 + 1
  let msgId := tk + 1
  let base := (stripInteractive st.items ++
      [ ConversationItem.message c1 ⟨c1, Speaker.user, Content.text label⟩,
        ConversationItem.typing tk text text ]).filter (fun i => !(isTypingItem i))
  let newMessage := ConversationItem.message msgId
    ⟨msgId, Speaker.system, Content.rich (getResponse sec)⟩
  if sec = "contact" then
    { st with
        items := base ++ [ newMessage, ConversationItem.contactBtn (msgId+1),
          ConversationItem.options (msgId+2) FOLLOW_UP_OPTIONS ],
        counter := msgId + 2,
        sessionActions := st.sessionActions ++ [SessionAction.select (some sec) label] }
  else
    { st with
        items := base ++ [ newMessage,
          ConversationItem.options (msgId+1) FOLLOW_UP_OPTIONS ],
        counter := msgId + 1,
        sessionActions := st.sessionActions ++ [SessionAction.select (some sec) label] }

/-- `handleSelect` of Terminal.tsx run to completion (all scheduled timer
callbacks and the typing reveal executed), returning the new state and the
emitted analytics effects.  A call during a typing reveal is dropped
before any effect fires. -/
def handleSelectCompleted (st : TermState) (sectionId : Option String) (label : String) :
    TermState × List Effect :=
  if st.isTyping then (st, [])
  else
    let eff := Effect.count ("nav-" ++ sectionId.getD label)
    if sectionId = some "__back" then (backCompleted st, [eff])
    else
      match NAV_TREE (resolveTarget sectionId label) with
      | some _ =>
          (enterFolderCompleted st (resolveTarget sectionId label)
            (resolveTarget sectionId label) label, [eff])
      | none =>
          match ((NAV_TREE (currentNavKey st.navPath)).getD []).find?
              (fun e => decide (sectionId = some e.id) || decide (e.label = label)) with
          | some m =>
              match m.type with
              | NavType.folder =>
                  (enterFolderCompleted st m.id
                    (if currentNavKey st.navPath = "root" then m.id
                     else currentNavKey st.navPath ++ "/" ++ m.id) label, [eff])
              | NavType.file content => (fileCompleted st m content, [eff])
              | NavType.exec =>
                  (st, [eff, Effect.count "nav-contact-form", Effect.track "contact_form_opened"])
              | NavType.popup _ => (popupCompleted st m, [eff])
          | none => (fallbackCompleted st sectionId label, [eff])

/-- The initial component state: empty transcript, path holding only the tilde. -/
def initialState : TermState :=
  { items := [], isTyping := false, sessionActions := [],
    navPath := ["~"], lastOpenedFileId := none, counter := 0 }

/-- Run a sequence of completed `handleSelect` calls. -/
def runSelects (st : TermState) (evs : List (Option String × String)) : TermState :=
  evs.foldl (fun s ev => (handleSelectCompleted s ev.1 ev.2).1) st

/-- The canonical listing for a location: `MAIN_OPTIONS` at root, otherwise
a back entry followed by the listing filtered by the remembered leaf
(this is `showEntriesAtCurrentPath` of Terminal.tsx). -/
def menuFor (path : List String) (lastOpened : Option String) : List OptionEntry :=
  if currentNavKey path = "root" then MAIN_OPTIONS
  else backOption ::
    (filterEntries ((NAV_TREE (currentNavKey path)).getD []) lastOpened).map entryOption

/-- The last options row of a transcript, if any. -/
def lastOptionsOf : List ConversationItem → Option (List OptionEntry)
  | [] => none
  | i :: rest =>
      match lastOptionsOf rest with
      | some o => some o
      | none =>
          match i with
          | ConversationItem.options _ o => some o
          | _ => none

lemma menuShapeOk_reconstruct_snoc_select (as : List SessionAction)
    (s : Option String) (l : String) (c : Nat) :
    menuShapeOk ((reconstructItems (as ++ [SessionAction.select s l]) c).1) = true := by
  unfold reconstructItems
  rw [List.foldl_append]
  simp only [List.foldl_cons, List.foldl_nil]
  rcases h : List.foldl reconstructStep ([], c) as with ⟨i, c2⟩
  exact menuShapeOk_reconstructStep_select i c2 s l

/-- Claim C2 (counterexample): after the completed select of the contact
entry, the replayed transcript ends with TWO live interactive rows — a
contact button directly followed by an options menu — so the trailing
interactive run does not consist of at most one interactive row. -/
theorem menu_hygiene_counterexample :
    (trailingInteractive ((reconstructItems
        [SessionAction.welcome, SessionAction.select (some "contact") "Contact"] 0).1)).map eraseIds
      = [RowContent.contactBtn, RowContent.options MAIN_OPTIONS]
    ∧ (trailingInteractive ((reconstructItems
        [SessionAction.welcome, SessionAction.select (some "contact") "Contact"] 0).1)).length = 2 := by
  constructor
  · decide
  · decide

lemma getResponse_notFound {s : String}
    (h : s ∉ (["about", "experience", "projects", "contact"] : List String)) :
    getResponse s = Response.notFound := by
  simp only [List.mem_cons, List.not_mem_nil, or_false, not_or] at h
  obtain ⟨h1, h2, h3, h4⟩ := h
  simp [getResponse, h1, h2, h3, h4]

/-- Claim C6: replaying the stored decisions
`[Welcome, Select("contact", "Contact")]` yields, in order, the welcome
system turn, the user turn "Contact", the system contact turn, a
contact-button row, and the root-equivalent follow-up menu
(`FOLLOW_UP_OPTIONS = MAIN_OPTIONS`), with no typing rows. -/
theorem scenario_contact_replay :
    ((reconstructItems
        [SessionAction.welcome, SessionAction.select (some "contact") "Contact"] 0).1).map eraseIds
      = [ RowContent.message Speaker.system (Content.text WELCOME_MESSAGE),
          RowContent.message Speaker.user (Content.text "Contact"),
          RowContent.message Speaker.system (Content.rich Response.contact),
          RowContent.contactBtn,
          RowContent.options MAIN_OPTIONS ]
    ∧ ((reconstructItems
        [SessionAction.welcome, SessionAction.select (some "contact") "Contact"] 0).1).all
          (fun i => !(isTypingItem i)) = true := by
  constructor
  · decide
  · decide

/-- Claim C10: replay is total on malformed select decisions.  A stored
select with no section field renders the `about` response, and one whose
section is outside the four known sections renders the
`Section not found.` fallback; reconstruction always produces the
user turn, the system turn and the follow-up menu. -/
theorem replay_total_on_malformed_select (as : List SessionAction) (l : String)
    (c : Nat) (s : String) :
    ((reconstructItems (as ++ [SessionAction.select none l]) c).1
        = stripInteractive (reconstructItems as c).1 ++
          [ ConversationItem.message ((reconstructItems as c).2+1)
              ⟨(reconstructItems as c).2+2, Speaker.user, Content.text l⟩,
            ConversationItem.message ((reconstructItems as c).2+3)
              ⟨(reconstructItems as c).2+4, Speaker.system, Content.rich Response.about⟩,
            ConversationItem.options ((reconstructItems as c).2+5) FOLLOW_UP_OPTIONS ])
    ∧ (s ∉ (["about", "experience", "projects", "contact"] : List String) →
        (reconstructItems (as ++ [SessionAction.select (some s) l]) c).1
          = stripInteractive (reconstructItems as c).1 ++
            [ ConversationItem.message ((reconstructItems as c).2+1)
                ⟨(reconstructItems as c).2+2, Speaker.user, Content.text l⟩,
              ConversationItem.message ((reconstructItems as c).2+3)
                ⟨(reconstructItems as c).2+4, Speaker.system, Content.rich Response.notFound⟩,
              ConversationItem.options ((reconstructItems as c).2+5) FOLLOW_UP_OPTIONS ]) := by
  constructor
  · show (reconstructItems (as ++ [SessionAction.select none l]) c).1 = _
    unfold reconstructItems
    rw [List.foldl_append]
    simp only [List.foldl_cons, List.foldl_nil]
    rcases h : List.foldl reconstructStep ([], c) as with ⟨i, c2⟩
    rw [reconstructStep_select, if_neg (by simp : ¬(none : Option String) = some "contact")]
    rfl
  · intro hs
    have hne : some s ≠ some "contact" := by
      simp only [List.mem_cons, List.not_mem_nil, or_false, not_or] at hs
      simp [hs.2.2.2]
    unfold reconstructItems
    rw [List.foldl_append]
    simp only [List.foldl_cons, List.foldl_nil]
    rcases h : List.foldl reconstructStep ([], c) as with ⟨i, c2⟩
    rw [reconstructStep_select, if_neg hne,
      show (some s).getD "about" = s from rfl, getResponse_notFound hs]

/-- Witness for `replay_total_on_malformed_select`: the decision
`{type: "select", section: "stack", label: "Stack"}` after a welcome replays
to the `Section not found.` fallback row followed by the follow-up menu. -/
theorem replay_total_on_malformed_select_witness :
    (reconstructItems ([SessionAction.welcome] ++ [SessionAction.select (some "stack") "Stack"]) 0).1
      = stripInteractive (reconstructItems [SessionAction.welcome] 0).1 ++
        [ ConversationItem.message ((reconstructItems [SessionAction.welcome] 0).2+1)
            ⟨(reconstructItems [SessionAction.welcome] 0).2+2, Speaker.user, Content.text "Stack"⟩,
          ConversationItem.message ((reconstructItems [SessionAction.welcome] 0).2+3)
            ⟨(reconstructItems [SessionAction.welcome] 0).2+4, Speaker.system,
              Content.rich Response.notFound⟩,
          ConversationItem.options ((reconstructItems [SessionAction.welcome] 0).2+5)
            FOLLOW_UP_OPTIONS ] :=
  (replay_total_on_malformed_select [SessionAction.welcome] "Stack" 0 "stack").2 (by decide)

lemma enterFolderCompleted_navPath (st : TermState) (p k l : String) :
    (enterFolderCompleted st p k l).navPath = st.navPath ++ [p] := rfl

lemma enterFolderCompleted_lastOpened (st : TermState) (p k l : String) :
    (enterFolderCompleted st p k l).lastOpenedFileId = none := rfl

lemma enterFolderCompleted_isTyping (st : TermState) (p k l : String) :
    (enterFolderCompleted st p k l).isTyping = st.isTyping := rfl

lemma backCompleted_navPath (st : TermState) :
    (backCompleted st).navPath
      = if st.navPath.length ≤ 1 then st.navPath else st.navPath.dropLast := by
  unfold backCompleted
  by_cases h : st.navPath.length ≤ 1
  · rw [if_pos h, if_pos h]
  · rw [if_neg h, if_neg h]
    dsimp only
    split <;> rfl

lemma fallbackCompleted_navPath (st : TermState) (s : Option String) (l : String) :
    (fallbackCompleted st s l).navPath = st.navPath := by
  unfold fallbackCompleted
  dsimp only
  split <;> rfl

/-- Claim C9: while a typing reveal is in flight, `handleSelect` is a
complete no-op — the transcript, nav path, suppression state, session log
and counter are unchanged and no analytics effect is emitted. -/
theorem select_noop_while_typing (st : TermState) (s : Option String) (l : String)
    (h : st.isTyping = true) :
    handleSelectCompleted st s l = (st, ([] : List Effect)) := by
  simp [handleSelectCompleted, h]

/-- Witness for `select_noop_while_typing` at a concrete typing state. -/
theorem select_noop_while_typing_witness :
    handleSelectCompleted { initialState with isTyping := true } (some "about") "About Me"
      = ({ initialState with isTyping := true }, ([] : List Effect)) :=
  select_noop_while_typing { initialState with isTyping := true } (some "about") "About Me" rfl

lemma navPath_length_preserved (st : TermState) (s : Option String) (l : String)
    (h : 1 ≤ st.navPath.length) :
    1 ≤ ((handleSelectCompleted st s l).1).navPath.length := by
  unfold handleSelectCompleted
  split
  · exact h
  · split
    · show 1 ≤ (backCompleted st).navPath.length
      rw [backCompleted_navPath]
      by_cases hb : st.navPath.length ≤ 1
      · rw [if_pos hb]; exact h
      · rw [if_neg hb, List.length_dropLast]; omega
    · split
      · show 1 ≤ (enterFolderCompleted st _ _ l).navPath.length
        rw [enterFolderCompleted_navPath]
        simp
      · split
        · split
          · show 1 ≤ (enterFolderCompleted st _ _ l).navPath.length
            rw [enterFolderCompleted_navPath]
            simp
          · exact h
          · exact h
          · exact h
        · show 1 ≤ (fallbackCompleted st s l).navPath.length
          rw [fallbackCompleted_navPath]
          exact h

lemma runSelects_navPath_len (evs : List (Option String × String)) :
    ∀ st : TermState, 1 ≤ st.navPath.length →
      1 ≤ (runSelects st evs).navPath.length := by
  induction evs with
  | nil => intro st h; exact h
  | cons ev rest ih =>
      intro st h
      exact ih _ (navPath_length_preserved st ev.1 ev.2 h)

/-- Claim C8: the navigation path is never empty in any state reachable by
completed `handleSelect` calls from the initial state, and a back while at
the root (path of length at most one) leaves the path unchanged. -/
theorem navPath_nonempty_and_back_noop :
    (∀ evs : List (Option String × String), (runSelects initialState evs).navPath ≠ [])
    ∧ (∀ (st : TermState) (l : String), st.navPath.length ≤ 1 →
        ((handleSelectCompleted st (some "__back") l).1).navPath = st.navPath) := by
  constructor
  · intro evs
    have h := runSelects_navPath_len evs initialState (by simp [initialState])
    intro hnil
    rw [hnil] at h
    simp at h
  · intro st l hle
    cases hty : st.isTyping
    · simp only [handleSelectCompleted, hty, Bool.false_eq_true, if_false, if_pos rfl]
      show (backCompleted st).navPath = st.navPath
      rw [backCompleted_navPath, if_pos hle]
    · simp [handleSelectCompleted, hty]

/-- Witness for `navPath_nonempty_and_back_noop`: a back click at the
freshly booted root leaves the path at the tilde. -/
theorem navPath_back_noop_witness :
    ((handleSelectCompleted initialState (some "__back") ".. Back").1).navPath
      = initialState.navPath :=
  navPath_nonempty_and_back_noop.2 initialState ".. Back" (by decide)

lemma menuShapeOk_noninteractive (p : List ConversationItem)
    (hp : ∀ i ∈ p, isInteractive i = false) :
    menuShapeOk p = true := by
  have h1 : trailingInteractive p = [] := by
    unfold trailingInteractive
    rw [takeWhile_eq_nil_of_all (fun a ha => hp a (List.mem_reverse.1 ha))]
    rfl
  have h2 : p.filter isInteractive = [] := filter_eq_nil_of_all hp
  simp [menuShapeOk, h1, h2, tailShapeOk]

lemma menuShapeOk_strip_options (base : List ConversationItem) (k : Nat)
    (o : List OptionEntry) :
    menuShapeOk (stripInteractive base ++ [ConversationItem.options k o]) = true := by
  apply menuShapeOk_append
  · intro i hi; exact isInteractive_of_mem_strip hi
  · intro i hi; rw [List.mem_singleton.1 hi]; rfl
  · rfl

lemma menuShapeOk_append_msg_options (p : List ConversationItem)
    (hp : ∀ i ∈ p, isInteractive i = false) (a : ConversationItem)
    (ha : isInteractive a = false) (k : Nat) (o : List OptionEntry) :
    menuShapeOk (p ++ [a, ConversationItem.options k o]) = true := by
  rw [show p ++ [a, ConversationItem.options k o]
      = (p ++ [a]) ++ [ConversationItem.options k o] by simp]
  apply menuShapeOk_append
  · intro i hi
    rcases List.mem_append.1 hi with hi | hi
    · exact hp i hi
    · rw [List.mem_singleton.1 hi]; exact ha
  · intro i hi; rw [List.mem_singleton.1 hi]; rfl
  · rfl

lemma menuShapeOk_append_msg_cb_options (p : List ConversationItem)
    (hp : ∀ i ∈ p, isInteractive i = false) (a : ConversationItem)
    (ha : isInteractive a = false) (k1 k2 : Nat) (o : List OptionEntry) :
    menuShapeOk (p ++ [a, ConversationItem.contactBtn k1,
      ConversationItem.options k2 o]) = true := by
  rw [show p ++ [a, ConversationItem.contactBtn k1, ConversationItem.options k2 o]
      = (p ++ [a]) ++ [ConversationItem.contactBtn k1, ConversationItem.options k2 o] by simp]
  apply menuShapeOk_append
  · intro i hi
    rcases List.mem_append.1 hi with hi | hi
    · exact hp i hi
    · rw [List.mem_singleton.1 hi]; exact ha
  · intro i hi
    simp only [List.mem_cons, List.not_mem_nil, or_false] at hi
    rcases hi with rfl | rfl <;> rfl
  · rfl

lemma noninteractive_of_mem_filter_strip_append
    {l extra : List ConversationItem} {p : ConversationItem → Bool}
    (hextra : ∀ i ∈ extra, isInteractive i = false) :
    ∀ i ∈ (stripInteractive l ++ extra).filter p, isInteractive i = false := by
  intro i hi
  have hmem := List.mem_of_mem_filter hi
  rcases List.mem_append.1 hmem with h | h
  · exact isInteractive_of_mem_strip h
  · exact hextra i h

lemma menuShapeOk_enterFolder (st : TermState) (p k l : String) :
    menuShapeOk ((enterFolderCompleted st p k l).items) = true := by
  unfold enterFolderCompleted
  dsimp only
  exact menuShapeOk_strip_options _ _ _

lemma menuShapeOk_fileCompleted (st : TermState) (m : NavEntry) (content : String) :
    menuShapeOk ((fileCompleted st m content).items) = true := by
  unfold fileCompleted
  dsimp only
  apply menuShapeOk_append_msg_options
  · intro i hi; exact isInteractive_of_mem_strip hi
  · rfl

lemma menuShapeOk_popupCompleted (st : TermState) (m : NavEntry) :
    menuShapeOk ((popupCompleted st m).items) = true := by
  unfold popupCompleted
  dsimp only
  apply menuShapeOk_noninteractive
  intro i hi
  rcases List.mem_append.1 hi with hi | hi
  · exact isInteractive_of_mem_strip hi
  · rw [List.mem_singleton.1 hi]; rfl

lemma menuShapeOk_fallback (st : TermState) (s : Option String) (l : String) :
    menuShapeOk ((fallbackCompleted st s l).items) = true := by
  unfold fallbackCompleted
  dsimp only
  split
  · apply menuShapeOk_append_msg_cb_options
    · apply noninteractive_of_mem_filter_strip_append
      intro i hi
      simp only [List.mem_cons, List.not_mem_nil, or_false] at hi
      rcases hi with rfl | rfl <;> rfl
    · rfl
  · apply menuShapeOk_append_msg_options
    · apply noninteractive_of_mem_filter_strip_append
      intro i hi
      simp only [List.mem_cons, List.not_mem_nil, or_false] at hi
      rcases hi with rfl | rfl <;> rfl
    · rfl

lemma menuShapeOk_handleSelect (st : TermState) (s : Option String) (l : String)
    (h : menuShapeOk st.items = true) :
    menuShapeOk ((handleSelectCompleted st s l).1.items) = true := by
  unfold handleSelectCompleted
  split
  · exact h
  · dsimp only
    split
    · show menuShapeOk (backCompleted st).items = true
      unfold backCompleted
      by_cases hb : st.navPath.length ≤ 1
      · rw [if_pos hb]; exact h
      · rw [if_neg hb]
        dsimp only
        split
        · exact menuShapeOk_strip_options _ _ _
        · exact menuShapeOk_strip_options _ _ _
    · split
      · exact menuShapeOk_enterFolder _ _ _ _
      · split
        · split
          · exact menuShapeOk_enterFolder _ _ _ _
          · exact menuShapeOk_fileCompleted _ _ _
          · exact h
          · exact menuShapeOk_popupCompleted _ _
        · exact menuShapeOk_fallback _ _ _

/-- Claim C2 (amended): after every completed select — in the replay path
and in the live path — all interactive rows of the transcript sit at its
end, and that trailing run is either empty, a single options row, or a
contact button immediately followed by an options row; two options menus
are never stacked, since issuing new interactive rows removes the prior
ones first.  (The original claim, that at most ONE interactive row is ever
live at the end, fails on the contact path: see the counterexample.) -/
theorem menu_hygiene (as : List SessionAction) (s : Option String) (l : String)
    (c : Nat) (st : TermState) (s2 : Option String) (l2 : String)
    (h : menuShapeOk st.items = true) :
    menuShapeOk ((reconstructItems (as ++ [SessionAction.select s l]) c).1) = true
    ∧ menuShapeOk ((handleSelectCompleted st s2 l2).1.items) = true :=
  ⟨menuShapeOk_reconstruct_snoc_select as s l c, menuShapeOk_handleSelect st s2 l2 h⟩

/-- Witness for `menu_hygiene`: a concrete contact replay and a concrete
live select from the initial state both satisfy the hygiene shape. -/
theorem menu_hygiene_witness :
    menuShapeOk ((reconstructItems
        ([SessionAction.welcome] ++ [SessionAction.select (some "contact") "Contact"]) 0).1) = true
    ∧ menuShapeOk ((handleSelectCompleted initialState (some "about") "About Me").1.items) = true :=
  menu_hygiene [SessionAction.welcome] (some "contact") "Contact" 0
    initialState (some "about") "About Me" (by decide)

lemma handleSelect_fallback_eq (st : TermState) (s : Option String) (l : String)
    (h1 : st.isTyping = false) (h2 : s ≠ some "__back")
    (h3 : NAV_TREE (resolveTarget s l) = none)
    (h4 : ((NAV_TREE (currentNavKey st.navPath)).getD []).find?
        (fun e => decide (s = some e.id) || decide (e.label = l)) = none) :
    handleSelectCompleted st s l
      = (fallbackCompleted st s l, [Effect.count ("nav-" ++ s.getD l)]) := by
  simp only [handleSelectCompleted, h1, Bool.false_eq_true, if_false, if_neg h2, h3, h4]

lemma filter_strip_msg_typing (b : List ConversationItem) (c1 : Nat) (d : MessageData)
    (tk : Nat) (t : String) :
    (stripInteractive b ++
        [ConversationItem.message c1 d, ConversationItem.typing tk t t]).filter
          (fun i => !(isTypingItem i))
      = (stripInteractive b).filter (fun i => !(isTypingItem i)) ++
          [ConversationItem.message c1 d] := by
  rw [List.filter_append]
  simp [List.filter_cons, isTypingItem]

/-- Claim C4 (amended): selecting an id that is not present in the current
listing does NOT raise a programming-error signal.  It is absorbed by the
legacy fallback: only the analytics count fires, the user turn is appended
followed by the `Section not found.` response (for targets outside the
legacy sections) and the fixed root follow-up menu — not a redisplay of
the current menu — the nav path is unchanged, and the decision is recorded
in the session log; the handler is total, so the UI does not crash. -/
theorem unknown_select_absorbed (st : TermState) (s : Option String) (l : String)
    (h1 : st.isTyping = false) (h2 : s ≠ some "__back")
    (h3 : NAV_TREE (resolveTarget s l) = none)
    (h4 : ((NAV_TREE (currentNavKey st.navPath)).getD []).find?
        (fun e => decide (s = some e.id) || decide (e.label = l)) = none)
    (h5 : s.getD l ∉ (["about", "experience", "projects", "contact"] : List String)) :
    (handleSelectCompleted st s l).2 = [Effect.count ("nav-" ++ s.getD l)]
    ∧ (handleSelectCompleted st s l).1.items
        = (stripInteractive st.items).filter (fun i => !(isTypingItem i)) ++
          [ ConversationItem.message (st.counter+1)
              ⟨st.counter+1, Speaker.user, Content.text l⟩,
            ConversationItem.message (st.counter+3)
              ⟨st.counter+3, Speaker.system, Content.rich Response.notFound⟩,
            ConversationItem.options (st.counter+4) FOLLOW_UP_OPTIONS ]
    ∧ (handleSelectCompleted st s l).1.navPath = st.navPath
    ∧ (handleSelectCompleted st s l).1.sessionActions
        = st.sessionActions ++ [SessionAction.select (some (s.getD l)) l] := by
  have hc : s.getD l ≠ "contact" := by
    intro hcontra
    exact h5 (by rw [hcontra]; decide)
  rw [handleSelect_fallback_eq st s l h1 h2 h3 h4]
  unfold fallbackCompleted
  dsimp only
  rw [if_neg hc]
  refine ⟨rfl, ?_, rfl, rfl⟩
  dsimp only
  rw [filter_strip_msg_typing, getResponse_notFound h5, List.append_assoc]
  simp [show st.counter + 1 + 1 + 1 = st.counter + 3 by omega,
    show st.counter + 1 + 1 + 1 + 1 = st.counter + 4 by omega]

/-- Witness for `unknown_select_absorbed`: selecting the unknown id `zzz`
while inside the experience listing. -/
theorem unknown_select_absorbed_witness :
    (handleSelectCompleted
        { items := [ConversationItem.options 9 (menuFor ["~", "experience"] none)],
          isTyping := false, sessionActions := [SessionAction.welcome],
          navPath := ["~", "experience"], lastOpenedFileId := none, counter := 10 }
        (some "zzz") "zzz").2 = [Effect.count ("nav-" ++ (some "zzz").getD "zzz")]
    ∧ (handleSelectCompleted
        { items := [ConversationItem.options 9 (menuFor ["~", "experience"] none)],
          isTyping := false, sessionActions := [SessionAction.welcome],
          navPath := ["~", "experience"], lastOpenedFileId := none, counter := 10 }
        (some "zzz") "zzz").1.items
        = (stripInteractive
            [ConversationItem.options 9 (menuFor ["~", "experience"] none)]).filter
              (fun i => !(isTypingItem i)) ++
          [ ConversationItem.message 11 ⟨11, Speaker.user, Content.text "zzz"⟩,
            ConversationItem.message 13 ⟨13, Speaker.system, Content.rich Response.notFound⟩,
            ConversationItem.options 14 FOLLOW_UP_OPTIONS ]
    ∧ (handleSelectCompleted
        { items := [ConversationItem.options 9 (menuFor ["~", "experience"] none)],
          isTyping := false, sessionActions := [SessionAction.welcome],
          navPath := ["~", "experience"], lastOpenedFileId := none, counter := 10 }
        (some "zzz") "zzz").1.navPath = ["~", "experience"]
    ∧ (handleSelectCompleted
        { items := [ConversationItem.options 9 (menuFor ["~", "experience"] none)],
          isTyping := false, sessionActions := [SessionAction.welcome],
          navPath := ["~", "experience"], lastOpenedFileId := none, counter := 10 }
        (some "zzz") "zzz").1.sessionActions
        = [SessionAction.welcome] ++ [SessionAction.select (some "zzz") "zzz"] :=
  unknown_select_absorbed
    { items := [ConversationItem.options 9 (menuFor ["~", "experience"] none)],
      isTyping := false, sessionActions := [SessionAction.welcome],
      navPath := ["~", "experience"], lastOpenedFileId := none, counter := 10 }
    (some "zzz") "zzz" rfl (by decide) (by decide) (by decide) (by decide)

/-- Claim C4 (counterexample): on a select of the unknown id `zzz` inside
the experience listing, the only emitted effect is the analytics count —
no distinct error signal — and the redisplayed menu is the fixed follow-up
(root) menu, which differs from the current (experience) menu, so the
system neither raises a programming-error signal nor falls back to
redisplaying the current menu. -/
theorem unknown_select_counterexample :
    (handleSelectCompleted
        { items := [ConversationItem.options 9 (menuFor ["~", "experience"] none)],
          isTyping := false, sessionActions := [SessionAction.welcome],
          navPath := ["~", "experience"], lastOpenedFileId := none, counter := 10 }
        (some "zzz") "zzz").2 = [Effect.count "nav-zzz"]
    ∧ lastOptionsOf ((handleSelectCompleted
        { items := [ConversationItem.options 9 (menuFor ["~", "experience"] none)],
          isTyping := false, sessionActions := [SessionAction.welcome],
          navPath := ["~", "experience"], lastOpenedFileId := none, counter := 10 }
        (some "zzz") "zzz").1.items) = some FOLLOW_UP_OPTIONS
    ∧ FOLLOW_UP_OPTIONS ≠ menuFor ["~", "experience"] none := by
  refine ⟨by decide, by decide, by decide⟩

lemma lastOptionsOf_append_options (l : List ConversationItem) (k : Nat)
    (o : List OptionEntry) :
    lastOptionsOf (l ++ [ConversationItem.options k o]) = some o := by
  induction l with
  | nil => rfl
  | cons a t ih => simp [lastOptionsOf, ih]

lemma handleSelect_folder_direct (st : TermState) (s : Option String) (l : String)
    (h1 : st.isTyping = false) (h2 : s ≠ some "__back")
    (es : List NavEntry) (h3 : NAV_TREE (resolveTarget s l) = some es) :
    handleSelectCompleted st s l
      = (enterFolderCompleted st (resolveTarget s l) (resolveTarget s l) l,
          [Effect.count ("nav-" ++ s.getD l)]) := by
  simp only [handleSelectCompleted, h1, Bool.false_eq_true, if_false, if_neg h2, h3]

lemma handleSelect_folder_entry (st : TermState) (s : Option String) (l : String)
    (m : NavEntry)
    (h1 : st.isTyping = false) (h2 : s ≠ some "__back")
    (h3 : NAV_TREE (resolveTarget s l) = none)
    (h4 : ((NAV_TREE (currentNavKey st.navPath)).getD []).find?
        (fun e => decide (s = some e.id) || decide (e.label = l)) = some m)
    (h5 : m.type = NavType.folder) :
    handleSelectCompleted st s l
      = (enterFolderCompleted st m.id
          (if currentNavKey st.navPath = "root" then m.id
           else currentNavKey st.navPath ++ "/" ++ m.id) l,
          [Effect.count ("nav-" ++ s.getD l)]) := by
  simp only [handleSelectCompleted, h1, Bool.false_eq_true, if_false, if_neg h2, h3, h4, h5]

lemma back_after_enterFolder (st : TermState) (pushSeg newKey label lbl2 : String)
    (hty : st.isTyping = false) (hne : st.navPath ≠ []) :
    ((handleSelectCompleted (enterFolderCompleted st pushSeg newKey label)
        (some "__back") lbl2).1).navPath = st.navPath
    ∧ lastOptionsOf ((handleSelectCompleted (enterFolderCompleted st pushSeg newKey label)
        (some "__back") lbl2).1).items = some (menuFor st.navPath none)
    ∧ ((handleSelectCompleted (enterFolderCompleted st pushSeg newKey label)
        (some "__back") lbl2).1).lastOpenedFileId = none := by
  have h1 : (enterFolderCompleted st pushSeg newKey label).isTyping = false := by
    rw [enterFolderCompleted_isTyping]; exact hty
  have hdisp : (handleSelectCompleted (enterFolderCompleted st pushSeg newKey label)
      (some "__back") lbl2).1 = backCompleted (enterFolderCompleted st pushSeg newKey label) := by
    simp only [handleSelectCompleted, h1, Bool.false_eq_true, if_false]
    simp
  rw [hdisp]
  have hpos : 0 < st.navPath.length := List.length_pos.2 hne
  have hlen : ¬ (enterFolderCompleted st pushSeg newKey label).navPath.length ≤ 1 := by
    rw [enterFolderCompleted_navPath, List.length_append]
    simp only [List.length_cons, List.length_nil]
    omega
  have hdrop : (enterFolderCompleted st pushSeg newKey label).navPath.dropLast = st.navPath := by
    rw [enterFolderCompleted_navPath]
    simp
  unfold backCompleted
  rw [if_neg hlen]
  dsimp only
  rw [hdrop, enterFolderCompleted_lastOpened]
  by_cases hk : currentNavKey st.navPath = "root"
  · rw [if_pos hk]
    refine ⟨rfl, ?_, rfl⟩
    dsimp only
    rw [lastOptionsOf_append_options]
    rw [menuFor, if_pos hk]
  · rw [if_neg hk]
    refine ⟨rfl, ?_, rfl⟩
    dsimp only
    rw [lastOptionsOf_append_options]
    rw [menuFor, if_neg hk]

/-- Claim C5: a back immediately after a select whose target is a folder
listing restores the pre-select location exactly — the nav path returns to
its previous value and the displayed menu is the canonical menu of that
location — except that the just-opened-leaf suppression resets: the
restored menu is computed with no remembered leaf, so a leaf hidden from
the pre-select menu is visible again; when nothing was suppressed the
restored menu equals the pre-select menu exactly. -/
theorem back_inverts_folder_select (st : TermState) (sectionId : Option String)
    (label lbl2 : String)
    (hty : st.isTyping = false)
    (hback : sectionId ≠ some "__back")
    (hne : st.navPath ≠ [])
    (hfolder : (∃ es, NAV_TREE (resolveTarget sectionId label) = some es) ∨
      (NAV_TREE (resolveTarget sectionId label) = none ∧
       ∃ m, ((NAV_TREE (currentNavKey st.navPath)).getD []).find?
           (fun e => decide (sectionId = some e.id) || decide (e.label = label)) = some m
         ∧ m.type = NavType.folder))
    (hmenu : lastOptionsOf st.items = some (menuFor st.navPath st.lastOpenedFileId)) :
    ((handleSelectCompleted (handleSelectCompleted st sectionId label).1
        (some "__back") lbl2).1).navPath = st.navPath
    ∧ lastOptionsOf ((handleSelectCompleted (handleSelectCompleted st sectionId label).1
        (some "__back") lbl2).1).items = some (menuFor st.navPath none)
    ∧ ((handleSelectCompleted (handleSelectCompleted st sectionId label).1
        (some "__back") lbl2).1).lastOpenedFileId = none
    ∧ (st.lastOpenedFileId = none →
        lastOptionsOf ((handleSelectCompleted (handleSelectCompleted st sectionId label).1
          (some "__back") lbl2).1).items = lastOptionsOf st.items) := by
  rcases hfolder with ⟨es, hes⟩ | ⟨hnone, m, hfind, hfolder⟩
  · rw [handleSelect_folder_direct st sectionId label hty hback es hes]
    have h := back_after_enterFolder st (resolveTarget sectionId label)
      (resolveTarget sectionId label) label lbl2 hty hne
    refine ⟨h.1, h.2.1, h.2.2, ?_⟩
    intro h0
    rw [h.2.1, hmenu, h0]
  · rw [handleSelect_folder_entry st sectionId label m hty hback hnone hfind hfolder]
    have h := back_after_enterFolder st m.id
      (if currentNavKey st.navPath = "root" then m.id
       else currentNavKey st.navPath ++ "/" ++ m.id) label lbl2 hty hne
    refine ⟨h.1, h.2.1, h.2.2, ?_⟩
    intro h0
    rw [h.2.1, hmenu, h0]

/-- Witness for `back_inverts_folder_select`: inside the extracurricular
listing with `philosophy.txt` suppressed (just opened), selecting the
`hobbies` folder and clicking back restores the extracurricular menu with
`philosophy.txt` visible again. -/
theorem back_inverts_folder_select_witness :
    ((handleSelectCompleted (handleSelectCompleted
        { items := [ConversationItem.options 9
            (menuFor ["~", "extracurricular"] (some "philosophy.txt"))],
          isTyping := false, sessionActions := [SessionAction.welcome],
          navPath := ["~", "extracurricular"],
          lastOpenedFileId := some "philosophy.txt", counter := 20 }
        (some "hobbies") "hobbies/").1 (some "__back") ".. Back").1).navPath
      = ["~", "extracurricular"]
    ∧ lastOptionsOf ((handleSelectCompleted (handleSelectCompleted
        { items := [ConversationItem.options 9
            (menuFor ["~", "extracurricular"] (some "philosophy.txt"))],
          isTyping := false, sessionActions := [SessionAction.welcome],
          navPath := ["~", "extracurricular"],
          lastOpenedFileId := some "philosophy.txt", counter := 20 }
        (some "hobbies") "hobbies/").1 (some "__back") ".. Back").1).items
      = some (menuFor ["~", "extracurricular"] none)
    ∧ ((handleSelectCompleted (handleSelectCompleted
        { items := [ConversationItem.options 9
            (menuFor ["~", "extracurricular"] (some "philosophy.txt"))],
          isTyping := false, sessionActions := [SessionAction.welcome],
          navPath := ["~", "extracurricular"],
          lastOpenedFileId := some "philosophy.txt", counter := 20 }
        (some "hobbies") "hobbies/").1 (some "__back") ".. Back").1).lastOpenedFileId
      = none := by
  have h := back_inverts_folder_select
    { items := [ConversationItem.options 9
        (menuFor ["~", "extracurricular"] (some "philosophy.txt"))],
      isTyping := false, sessionActions := [SessionAction.welcome],
      navPath := ["~", "extracurricular"],
      lastOpenedFileId := some "philosophy.txt", counter := 20 }
    (some "hobbies") "hobbies/" ".. Back" rfl (by decide) (by decide)
    (Or.inr ⟨by decide, ⟨"hobbies", "hobbies/", NavType.folder⟩, by decide, rfl⟩)
    (by decide)
  exact ⟨h.1, h.2.1, h.2.2.1⟩

/-- State of one `typeMessage` reveal session: the target text, the index
of the reveal loop, the displayed prefix of the typing row, the `isTyping`
flag, the shared `skipTypingRef` flag, whether a `setTimeout` tick is
pending, and the number of times `onDone` has been invoked. -/
structure EngineState where
  text : String
  idx : Nat
  displayed : String
  isTyping : Bool
  skipFlag : Bool
  scheduled : Bool
  doneCalls : Nat
deriving DecidableEq, Repr

/-- External events driving the reveal: a timer tick, or a user pointer or
key input (the global skip listener). -/
inductive TypeEvent
  | tick
  | userInput
deriving DecidableEq, Repr

/-- `typeMessage(text, onDone)`: reset the skip flag, mark typing, append
the typing row with an empty prefix, and schedule the first tick. -/
def engineInit (text : String) : EngineState :=
  { text := text, idx := 0, displayed := "", isTyping := true,
    skipFlag := false, scheduled := true, doneCalls := 0 }

/-- One event step.  `userInput` is the `handleSkip` listener: it sets the
skip flag only while `isTyping`.  `tick` is the body of the reveal loop:
if a tick is pending, a requested skip completes immediately with the full
text; otherwise the next character is revealed, and the loop either
reschedules itself or completes.  Completion clears `isTyping`, leaves no
tick pending, and invokes `onDone` once.  When no tick is pending a tick
event is a no-op (the timer was never rescheduled). -/
def engineStep (s : EngineState) : TypeEvent → EngineState
  | TypeEvent.userInput => if s.isTyping then { s with skipFlag := true } else s
  | TypeEvent.tick =>
      if s.scheduled then
        if s.skipFlag then
          { s with displayed := s.text, isTyping := false, scheduled := false,
                   doneCalls := s.doneCalls + 1 }
        else
          if s.idx + 1 < s.text.length then
            { s with idx := s.idx + 1, displayed := s.text.take (s.idx + 1) }
          else
            { s with idx := s.idx + 1, displayed := s.text.take (s.idx + 1),
                     isTyping := false, scheduled := false,
                     doneCalls := s.doneCalls + 1 }
      else s

/-- Run the engine over a sequence of events. -/
def engineRun (s : EngineState) (es : List TypeEvent) : EngineState :=
  es.foldl engineStep s

/-- The reveal session is either in flight with no completed call, or
completed with exactly one call and no tick pending. -/
def engineInv (s : EngineState) : Prop :=
  (s.isTyping = true ∧ s.scheduled = true ∧ s.doneCalls = 0) ∨
  (s.isTyping = false ∧ s.scheduled = false ∧ s.doneCalls = 1)

lemma engineInv_init (text : String) : engineInv (engineInit text) := by
  left; exact ⟨rfl, rfl, rfl⟩

lemma engineInv_step (s : EngineState) (e : TypeEvent) (h : engineInv s) :
    engineInv (engineStep s e) := by
  rcases h with ⟨h1, h2, h3⟩ | ⟨h1, h2, h3⟩
  · cases e with
    | tick =>
        unfold engineStep
        dsimp only
        rw [if_pos h2]
        by_cases hsk : s.skipFlag = true
        · rw [if_pos hsk]
          right; exact ⟨rfl, rfl, by simp [h3]⟩
        · rw [if_neg hsk]
          by_cases hidx : s.idx + 1 < s.text.length
          · rw [if_pos hidx]
            left; exact ⟨h1, h2, h3⟩
          · rw [if_neg hidx]
            right; exact ⟨rfl, rfl, by simp [h3]⟩
    | userInput =>
        unfold engineStep
        dsimp only
        rw [if_pos h1]
        left; exact ⟨h1, h2, h3⟩
  · cases e with
    | tick =>
        unfold engineStep
        dsimp only
        rw [if_neg (by rw [h2]; simp)]
        right; exact ⟨h1, h2, h3⟩
    | userInput =>
        unfold engineStep
        dsimp only
        rw [if_neg (by rw [h1]; simp)]
        right; exact ⟨h1, h2, h3⟩

lemma engineInv_run (s : EngineState) (es : List TypeEvent) (h : engineInv s) :
    engineInv (engineRun s es) := by
  induction es generalizing s with
  | nil => exact h
  | cons e rest ih => exact ih (engineStep s e) (engineInv_step s e h)

lemma engineStep_absorbing (s : EngineState) (e : TypeEvent)
    (h1 : s.isTyping = false) (h2 : s.scheduled = false) :
    engineStep s e = s := by
  cases e with
  | tick =>
      unfold engineStep
      dsimp only
      rw [if_neg (by rw [h2]; simp)]
  | userInput =>
      unfold engineStep
      dsimp only
      rw [if_neg (by rw [h1]; simp)]

lemma engineRun_absorbing (s : EngineState) (es : List TypeEvent)
    (h1 : s.isTyping = false) (h2 : s.scheduled = false) :
    engineRun s es = s := by
  induction es with
  | nil => rfl
  | cons e rest ih =>
      show engineRun (engineStep s e) rest = s
      rw [engineStep_absorbing s e h1 h2]
      exact ih

/-- Claim C3: for every reveal session started by `typeMessage` and every
interleaving of ticks and user inputs, `onDone` is invoked at most once;
whenever the reveal has completed (naturally or through skip, i.e.
`isTyping` is false) it was invoked exactly once; and once completed,
every further event — in particular a late skip signal — leaves the state
unchanged, so `onDone` is never invoked a second time. -/
theorem typing_onDone_exactly_once (text : String) (es : List TypeEvent) :
    (engineRun (engineInit text) es).doneCalls ≤ 1
    ∧ ((engineRun (engineInit text) es).isTyping = false →
        (engineRun (engineInit text) es).doneCalls = 1)
    ∧ ((engineRun (engineInit text) es).isTyping = false →
        ∀ es2, engineRun (engineRun (engineInit text) es) es2
          = engineRun (engineInit text) es) := by
  have hinv : engineInv (engineRun (engineInit text) es) :=
    engineInv_run (engineInit text) es (engineInv_init text)
  rcases hinv with ⟨h1, h2, h3⟩ | ⟨h1, h2, h3⟩
  · refine ⟨by omega, ?_, ?_⟩
    · intro hcontra; rw [h1] at hcontra; cases hcontra
    · intro hcontra; rw [h1] at hcontra; cases hcontra
  · refine ⟨by omega, fun _ => h3, fun _ es2 => engineRun_absorbing _ es2 h1 h2⟩

/-- Witness for `typing_onDone_exactly_once`: a two-character text revealed
by two natural ticks completes with one `onDone` call, and a late skip
input followed by a stray tick changes nothing. -/
theorem typing_onDone_exactly_once_witness :
    (engineRun (engineInit "hi") [TypeEvent.tick, TypeEvent.tick]).doneCalls = 1
    ∧ engineRun (engineRun (engineInit "hi") [TypeEvent.tick, TypeEvent.tick])
        [TypeEvent.userInput, TypeEvent.tick]
      = engineRun (engineInit "hi") [TypeEvent.tick, TypeEvent.tick] :=
  ⟨(typing_onDone_exactly_once "hi" [TypeEvent.tick, TypeEvent.tick]).2.1 (by decide),
   (typing_onDone_exactly_once "hi" [TypeEvent.tick, TypeEvent.tick]).2.2 (by decide)
     [TypeEvent.userInput, TypeEvent.tick]⟩

/-- Kinds of persistence faults the try/catch blocks of Terminal.tsx can
catch: a quota error from `setItem`, a serialization error from
`JSON.stringify`, or corrupt non-JSON stored data from `JSON.parse`. -/
inductive StorageFault
  | quotaExceeded
  | serializationFailure
  | corruptData
deriving DecidableEq, Repr

/-- Outcome of `saveSession`: the write succeeded, or the fault was caught,
logged via `console.error`, and the function returned normally. -/
inductive SaveOutcome
  | stored
  | loggedError (f : StorageFault)
deriving DecidableEq, Repr

/-- `saveSession`: the body of its try/catch.  The argument models the
outcome of `JSON.stringify` plus `sessionStorage.setItem`; any thrown
fault is caught and logged, never propagated. -/
def saveSession (writeResult : Except StorageFault Unit) : SaveOutcome :=
  match writeResult with
  | Except.ok _ => SaveOutcome.stored
  | Except.error f => SaveOutcome.loggedError f

/-- `loadSession`: the body of its try/catch.  The argument models
`sessionStorage.getItem` plus `JSON.parse` — `ok none` is an absent key,
`ok (some actions)` parsed data, `error` a thrown fault.  Any fault is
caught, logged, and turned into `null`. -/
def loadSession (readResult : Except StorageFault (Option (List SessionAction))) :
    Option (List SessionAction) :=
  match readResult with
  | Except.ok v => v
  | Except.error _ => none

/-- What the boot effect does with the loaded log: replay it when a
non-empty log was loaded, otherwise play the welcome typing sequence. -/
inductive BootMode
  | restoreSession (items : List ConversationItem)
  | playWelcome
deriving DecidableEq, Repr

/-- The boot decision of Terminal.tsx: a saved non-empty action log is
replayed through `reconstructItems`; anything else plays the welcome. -/
def bootMode (loaded : Option (List SessionAction)) : BootMode :=
  match loaded with
  | some acts =>
      if acts.length > 0 then BootMode.restoreSession (reconstructItems acts 0).1
      else BootMode.playWelcome
  | none => BootMode.playWelcome

/-- Claim C7: every storage fault is absorbed.  `saveSession` catches the
fault, logs it and returns normally; `loadSession` catches it, logs it and
returns `null`; and boot then proceeds with the in-memory welcome session
— no persistence fault escapes to crash the UI. -/
theorem storage_faults_absorbed (f : StorageFault) :
    saveSession (Except.error f) = SaveOutcome.loggedError f
    ∧ loadSession (Except.error f) = none
    ∧ bootMode (loadSession (Except.error f)) = BootMode.playWelcome :=
  ⟨rfl, rfl, rfl⟩

end Portfolio
